import Mathlib

/-!
Shallow embedding of the histogram-builder core of the demoland-web frontend
(`web/src/lib/leftSidebar/chart` module: `getValues`, `calculateTickStepSize`,
`prettyLabel`, `bin`, `getMean`, `makeChartDataOneScenario`,
`makeChartDataTwoScenarios`, `makeChartDataDifference`, `makeChartData`).

Modelling conventions:
* JavaScript numbers are embedded as exact rationals (`ℚ`).  All literals of
  the source (`0.5`, `1.1`, `0.1`, ...) are finite decimals and are embedded
  exactly.
* The ambient imports `config` (global scale bounds) and `makeColormap`
  (opaquely consumed colour-ramp generator) are passed as explicit parameters.
* JavaScript `Map` iteration order is embedded by keeping each scenario's
  per-area records as a list; an area record `m` is embedded as a function
  from indicator names to numbers (the source only ever calls `m.get`).
* The empty-spread behaviour of `Math.min(...[])` / `Math.max(...[])`
  (yielding `Infinity` / `-Infinity`) is embedded exactly by the `JSVal`
  type and the `diffMaxBound` function below; the rational-valued
  `makeChartDataDifference` is exact whenever the retained difference list
  is nonempty.
-/

/-- JavaScript `Math.round`: round to the nearest integer, ties toward
positive infinity. -/
def jsRound (q : ℚ) : ℤ := ⌊q + 1 / 2⌋

/-- Model of `10 ** Math.floor(Math.log10(s))` from the source.  The source
only evaluates it for `s > 100`, where `Math.floor(Math.log10 s)` equals
`Nat.log 10 ⌊s⌋`, the number of decimal digits of `⌊s⌋` minus one. -/
def orderOfMagnitude (s : ℚ) : ℚ := (10 : ℚ) ^ (Nat.log 10 (Int.toNat ⌊s⌋))

/-- Tick step size heuristic (source `calculateTickStepSize`, lines 14-23). -/
def calculateTickStepSize (maxV minV : ℚ) : ℚ :=
  let s : ℚ := (maxV - minV) / 4
  if s < 1 / 2 then 1 / 2
  else if s < 1 then 1
  else if s > 100 then (jsRound (s / orderOfMagnitude s) : ℚ) * orderOfMagnitude s
  else (jsRound s : ℚ)

/-- Decimal digit characters of a natural number, most significant first;
the integer part of ECMAScript number-to-string conversion. -/
def natToDigits (n : ℕ) : List Char :=
  if _h : n < 10 then [Nat.digitChar n]
  else natToDigits (n / 10) ++ [Nat.digitChar (n % 10)]
  decreasing_by exact Nat.div_lt_self (by omega) (by norm_num)

/-- Decimal digits of a fractional part `q` (intended `0 ≤ q < 1`), up to
`fuel` digits.  Exact whenever the decimal expansion of `q` terminates
within `fuel` digits, which holds for every value this development
interpolates into a string. -/
def fracDigits (fuel : ℕ) (q : ℚ) : List Char :=
  if fuel = 0 then []
  else if q = 0 then []
  else
    let q10 := q * 10
    let d := Int.toNat ⌊q10⌋
    Nat.digitChar d :: fracDigits (fuel - 1) (q10 - (d : ℚ))
  decreasing_by omega

/-- Model of ECMAScript default number-to-string conversion, for nonnegative
numbers with a short terminating decimal expansion (every number the source
interpolates with `${...}` is of this form). -/
def ratToString (q : ℚ) : String :=
  let ip := Int.toNat ⌊q⌋
  let fp := q - (ip : ℚ)
  if fp = 0 then String.mk (natToDigits ip)
  else String.mk (natToDigits ip ++ '.' :: fracDigits 20 fp)

/-- Two decimal digit characters of `n < 100`, zero padded. -/
def twoDigits (n : ℕ) : List Char := [Nat.digitChar (n / 10), Nat.digitChar (n % 10)]

/-- Model of ECMAScript `Number.prototype.toFixed(2)`: the nearest multiple
of `1/100`, ties on the magnitude rounded up, printed with exactly two
fractional digits. -/
def toFixed2 (q : ℚ) : String :=
  if q < 0 then
    let n := Int.toNat ⌊-q * 100 + 1 / 2⌋
    String.mk ('-' :: (natToDigits (n / 100) ++ '.' :: twoDigits (n % 100)))
  else
    let n := Int.toNat ⌊q * 100 + 1 / 2⌋
    String.mk (natToDigits (n / 100) ++ '.' :: twoDigits (n % 100))

/-- Pretty-printer for chart tick labels (source `prettyLabel`, lines 32-42).
The source's first line passes non-numeric input through unchanged; the
embedding takes numeric input only, so that line has no counterpart.  The
source gives `withSign` the default value `false`; the embedding makes the
argument explicit. -/
def prettyLabel (value : ℚ) (withSign : Bool) : String :=
  if value = 0 then "0"
  else if value ≥ 1000000 then (if withSign then "+" else "") ++ ratToString (value / 1000000) ++ "M"
  else if value ≥ 1000 then (if withSign then "+" else "") ++ ratToString (value / 1000) ++ "K"
  else if value ≤ -1000000 then "−" ++ ratToString |value / 1000000| ++ "M"
  else if value ≤ -1000 then "−" ++ ratToString |value / 1000| ++ "K"
  else if value ≥ 0 then (if withSign then "+" else "") ++ ratToString value
  else "−" ++ ratToString |value|

/-- List update modelling the JavaScript statement `counts[i] += 1` for an
index `0 ≤ i < counts.length` (an out-of-range index leaves the list
unchanged; in the source every reachable write is in bounds). -/
def incAt : List ℕ → ℕ → List ℕ
  | [], _ => []
  | x :: xs, 0 => (x + 1) :: xs
  | x :: xs, i + 1 => x :: incAt xs i

/-- Loop body of `bin` (source lines 63-72): the `d === max` special case
unconditionally increments the last bucket, and then the guarded increment
at `Math.floor((d - min) / stepSize)` runs as well (there is no `else`). -/
def binStep (minV maxV : ℚ) (nsteps : ℕ) (counts : List ℕ) (d : ℚ) : List ℕ :=
  let stepSize : ℚ := (maxV - minV) / nsteps
  let counts1 := if d = maxV then incAt counts (nsteps - 1) else counts
  let b : ℤ := ⌊(d - minV) / stepSize⌋
  if 0 ≤ b ∧ b < nsteps then incAt counts1 b.toNat else counts1

/-- Result record of `bin`. -/
structure Bins where
  counts : List ℕ
  centres : List ℚ
deriving DecidableEq

/-- Histogram binning (source `bin`, lines 58-76). -/
def bin (data : List ℚ) (minV maxV : ℚ) (nsteps : ℕ) : Bins :=
  { counts := data.foldl (binStep minV maxV nsteps) (List.replicate nsteps 0),
    centres := (List.range nsteps).map
      (fun (i : ℕ) => minV + ((i : ℚ) + 1 / 2) * ((maxV - minV) / nsteps)) }

/-- Mean of a list of values (source `getMean`, lines 103-105).  The source
produces `NaN` on an empty list; the embedding produces the rational junk
value `0 / 0 = 0` there, and no theorem below evaluates the mean of an
empty list. -/
def getMean (xs : List ℚ) : ℚ := xs.foldl (fun a b => a + b) 0 / (xs.length : ℚ)

/-- Scenario metadata (only the `short` display name is consumed). -/
structure Metadata where
  short : String

/-- A scenario: display metadata plus the per-area indicator records, kept
in `Map` iteration order. -/
structure Scenario where
  metadata : Metadata
  values : List (String → ℚ)

/-- Global display scale (`config.scale`). -/
structure Scale where
  min : ℚ
  max : ℚ

/-- The part of the external `config` store this core reads. -/
structure Config where
  scale : Scale

/-- All values of one indicator across the areas of a scenario (source
`getValues`, lines 5-7). -/
def getValues (indicator : String) (scenario : Scenario) : List ℚ :=
  scenario.values.map (fun m => m indicator)

/-- JavaScript `Math.max(...counts)` over a list of natural-number counts.
Exact for nonempty lists; the source applies it only to the `counts` array
of length `nbars` (on an empty array JavaScript yields `-Infinity`; no
claim exercises `nbars = 0`). -/
def jsMaxNat (l : List ℕ) : ℕ := l.foldl Nat.max 0

/-- The `data` field of a chart dataset: either `{x, y}` points (scatter)
or plain per-bucket counts (bar). -/
inductive DatasetData where
  | points (ps : List (ℚ × ℚ))
  | counts (cs : List ℕ)
deriving DecidableEq

/-- The `backgroundColor` field: absent, one CSS colour string, or one
colour per bucket. -/
inductive BackgroundColor where
  | missing
  | single (c : String)
  | multiple (cs : List String)
deriving DecidableEq

/-- One renderable series (source `ChartDataset` type, lines 79-95).
Optional style attributes are embedded as `Option`s, `none` meaning the
source object literal omits the field. -/
structure ChartDataset where
  type : String
  label : String
  data : DatasetData
  backgroundColor : BackgroundColor := BackgroundColor.missing
  borderWidth : Option ℚ := none
  showLine : Option Bool := none
  grouped : Option Bool := none
  order : Option ℕ := none
  categoryPercentage : Option ℚ := none
  barPercentage : Option ℚ := none
  borderDash : Option (List ℕ) := none
  borderColor : Option String := none
  pointStyle : Option String := none
  pointRadius : Option ℚ := none
deriving DecidableEq

/-- The chart payload (source `ChartData` type, lines 97-101). -/
structure ChartData where
  labels : List ℚ
  datasets : List ChartDataset
  tickStepSize : ℚ
deriving DecidableEq

/-- Chart data for a single scenario (source `makeChartDataOneScenario`,
lines 109-147). -/
def makeChartDataOneScenario (config : Config) (makeColormap : String → ℕ → List String)
    (indicator : String) (scenario : Scenario) (nbars : ℕ) : ChartData :=
  let colors := makeColormap indicator nbars
  let rawValues := getValues indicator scenario
  let bins := bin rawValues config.scale.min config.scale.max nbars
  let mean := getMean rawValues
  { datasets := [
      { type := "scatter"
        label := "Mean: " ++ toFixed2 mean
        data := DatasetData.points [(mean, 5), (mean, (jsMaxNat bins.counts : ℚ) * (11 / 10))]
        showLine := some true
        pointStyle := some "line"
        pointRadius := some 0
        borderDash := some [6, 3]
        borderWidth := some (3 / 2)
        borderColor := some "#000000" },
      { type := "bar"
        label := scenario.metadata.short
        data := DatasetData.counts bins.counts
        backgroundColor := BackgroundColor.multiple colors
        borderWidth := some 0
        categoryPercentage := some 1
        barPercentage := some 1
        pointStyle := some "rect" } ],
    labels := bins.centres,
    tickStepSize := calculateTickStepSize config.scale.max config.scale.min }

/-- Chart data for two scenarios (source `makeChartDataTwoScenarios`,
lines 150-218).  Note that, exactly as in the source, both scatter
datasets place their two points at `mean` (the first scenario's mean) and
scale their top `y` by `bins.counts` (the first scenario's counts), even
though the first dataset is labelled with `cmpMean`. -/
def makeChartDataTwoScenarios (config : Config) (makeColormap : String → ℕ → List String)
    (indicator : String) (scenario compareScenario : Scenario) (nbars : ℕ) : ChartData :=
  let colors := makeColormap indicator nbars
  let rawValues := getValues indicator scenario
  let cmpRawValues := getValues indicator compareScenario
  let bins := bin rawValues config.scale.min config.scale.max nbars
  let cmpBins := bin cmpRawValues config.scale.min config.scale.max nbars
  let mean := getMean rawValues
  let cmpMean := getMean cmpRawValues
  { datasets := [
      { type := "scatter"
        label := compareScenario.metadata.short ++ " mean: " ++ toFixed2 cmpMean
        data := DatasetData.points [(mean, 5), (mean, (jsMaxNat bins.counts : ℚ) * (11 / 10))]
        showLine := some true
        pointStyle := some "line"
        pointRadius := some 0
        borderDash := some [6, 3]
        borderWidth := some (3 / 2)
        borderColor := some "#ff0000" },
      { type := "scatter"
        label := scenario.metadata.short ++ " mean: " ++ toFixed2 mean
        data := DatasetData.points [(mean, 5), (mean, (jsMaxNat bins.counts : ℚ) * (11 / 10))]
        showLine := some true
        pointStyle := some "line"
        pointRadius := some 0
        borderDash := some [6, 3]
        borderWidth := some (3 / 2)
        borderColor := some "#000000" },
      { type := "bar"
        label := compareScenario.metadata.short
        data := DatasetData.counts cmpBins.counts
        backgroundColor := BackgroundColor.single "rgba(1, 1, 1, 0)"
        borderWidth := some 1
        borderColor := some "#f00"
        barPercentage := some 1
        grouped := some false
        order := some 1
        categoryPercentage := some 1
        pointStyle := some "rect" },
      { type := "bar"
        label := scenario.metadata.short
        data := DatasetData.counts bins.counts
        backgroundColor := BackgroundColor.multiple colors
        borderWidth := some 0
        grouped := some false
        order := some 2
        categoryPercentage := some 1
        barPercentage := some 1
        pointStyle := some "rect" } ],
    labels := bins.centres,
    tickStepSize := calculateTickStepSize config.scale.max config.scale.min }

/-- Elementwise difference `scenValues[i] - cmpScenValues[i]` (source line 230).
Exact when the two lists have equal length, i.e. when the two scenarios
cover the same areas, as every claim assumes; on a longer first list the
source produces `NaN` entries, covered by `diffValuesJS` below. -/
def diffValues (xs ys : List ℚ) : List ℚ := List.zipWith (fun a b => a - b) xs ys

/-- Smallest element of a list (JavaScript `Math.min(...l)`), exact for
nonempty `l`.  On the empty list JavaScript yields `Infinity`; this
rational-valued model returns the junk value `0` there, and the exact
`JSVal`-level behaviour is captured by `jsMinSpread` below. -/
def minList (l : List ℚ) : ℚ :=
  match l with
  | [] => 0
  | x :: xs => xs.foldl Min.min x

/-- Largest element of a list (JavaScript `Math.max(...l)`), exact for
nonempty `l`; see `minList`. -/
def maxList (l : List ℚ) : ℚ :=
  match l with
  | [] => 0
  | x :: xs => xs.foldl Max.max x

/-- Chart data for the difference of two scenarios (source
`makeChartDataDifference`, lines 221-256).  Exact whenever the retained
difference list is nonempty; for the empty list (two identical scenarios)
the source computes an infinite range, captured exactly by
`diffMaxBound`. -/
def makeChartDataDifference (_config : Config) (makeColormap : String → ℕ → List String)
    (indicator : String) (scenario compareScenario : Scenario) (nbars : ℕ) : ChartData :=
  let colors := makeColormap "diff" nbars
  let scenValues := getValues indicator scenario
  let cmpScenValues := getValues indicator compareScenario
  let rawValues := (diffValues scenValues cmpScenValues).filter (fun v => v ≠ 0)
  let maxV := Max.max (Max.max |minList rawValues| |maxList rawValues|) (1 / 10)
  let minV := -maxV
  let bins := bin rawValues minV maxV nbars
  { datasets := [
      { type := "bar"
        label := "Difference"
        data := DatasetData.counts bins.counts
        backgroundColor := BackgroundColor.multiple colors
        borderWidth := some 0
        categoryPercentage := some 1
        barPercentage := some 1
        pointStyle := some "rect" } ],
    labels := bins.centres,
    tickStepSize := calculateTickStepSize maxV minV }

/-- Mode dispatch (source `makeChartData`, lines 259-277).  The source
annotates `chartStyle` with the union type `"both" | "difference"` but has
no run-time guard; a call that defeats the type annotation with any other
string falls off the end of the function and produces `undefined`,
embedded as `none`. -/
def makeChartData (config : Config) (makeColormap : String → ℕ → List String)
    (indicator : String) (scenario : Scenario) (compareScenario : Option Scenario)
    (nbars : ℕ) (chartStyle : String) : Option ChartData :=
  match compareScenario with
  | none => some (makeChartDataOneScenario config makeColormap indicator scenario nbars)
  | some cmp =>
    if chartStyle = "both" then
      some (makeChartDataTwoScenarios config makeColormap indicator scenario cmp nbars)
    else if chartStyle = "difference" then
      some (makeChartDataDifference config makeColormap indicator scenario cmp nbars)
    else none

/-- A JavaScript number as far as the difference-range computation is
concerned: a finite value, one of the two infinities, or `NaN`. -/
inductive JSVal where
  | num (q : ℚ)
  | posInf
  | negInf
  | nan
deriving DecidableEq

/-- Binary `Math.min` on `JSVal` (any `NaN` operand dominates). -/
def jsMin2 : JSVal → JSVal → JSVal
  | JSVal.nan, _ => JSVal.nan
  | _, JSVal.nan => JSVal.nan
  | JSVal.posInf, v => v
  | v, JSVal.posInf => v
  | JSVal.negInf, _ => JSVal.negInf
  | _, JSVal.negInf => JSVal.negInf
  | JSVal.num a, JSVal.num b => JSVal.num (Min.min a b)

/-- Binary `Math.max` on `JSVal` (any `NaN` operand dominates). -/
def jsMax2 : JSVal → JSVal → JSVal
  | JSVal.nan, _ => JSVal.nan
  | _, JSVal.nan => JSVal.nan
  | JSVal.negInf, v => v
  | v, JSVal.negInf => v
  | JSVal.posInf, _ => JSVal.posInf
  | _, JSVal.posInf => JSVal.posInf
  | JSVal.num a, JSVal.num b => JSVal.num (Max.max a b)

/-- Variadic `Math.min(...l)`: starts from `Infinity`, so the empty spread
yields `Infinity`. -/
def jsMinSpread (l : List JSVal) : JSVal := l.foldl jsMin2 JSVal.posInf

/-- Variadic `Math.max(...l)`: starts from `-Infinity`, so the empty spread
yields `-Infinity`. -/
def jsMaxSpread (l : List JSVal) : JSVal := l.foldl jsMax2 JSVal.negInf

/-- `Math.abs` on `JSVal`. -/
def jsAbs : JSVal → JSVal
  | JSVal.num q => JSVal.num |q|
  | JSVal.posInf => JSVal.posInf
  | JSVal.negInf => JSVal.posInf
  | JSVal.nan => JSVal.nan

/-- The indexed map `scenValues.map((value, i) => value - cmpScenValues[i])`
of source line 230, including the JavaScript behaviour on a longer first
list: `value - undefined` is `NaN`. -/
def diffValuesJS : List ℚ → List ℚ → List JSVal
  | [], _ => []
  | _ :: xs, [] => JSVal.nan :: diffValuesJS xs []
  | x :: xs, y :: ys => JSVal.num (x - y) :: diffValuesJS xs ys

/-- The retained difference list of source line 230: the elementwise
differences with exact zeroes dropped (`.filter((value) => value !== 0)`;
`NaN !== 0` is true, so `NaN` entries are retained). -/
def rawDiffsJS (xs ys : List ℚ) : List JSVal :=
  (diffValuesJS xs ys).filter (fun v => v ≠ JSVal.num 0)

/-- The symmetric range bound of source lines 231-235,
`Math.max(Math.abs(Math.min(...rawValues)), Math.abs(Math.max(...rawValues)), 0.1)`,
with the exact JavaScript treatment of the empty spread. -/
def diffMaxBound (xs ys : List ℚ) : JSVal :=
  jsMax2 (jsMax2 (jsAbs (jsMinSpread (rawDiffsJS xs ys)))
      (jsAbs (jsMaxSpread (rawDiffsJS xs ys))))
    (JSVal.num (1 / 10))

/-- Configuration used by the concrete two-scenario evaluation of claim C1. -/
def chartConfigC1 : Config := ⟨⟨0, 5⟩⟩

/-- Primary scenario of the concrete C1 evaluation: one area, value 0. -/
def scenarioC1A : Scenario := ⟨⟨"A"⟩, [fun _ => 0]⟩

/-- Comparison scenario of the concrete C1 evaluation: two areas, both
value 1, so its mean is 1 and its histogram peak over `[0, 5]` with five
buckets is 2. -/
def scenarioC1B : Scenario := ⟨⟨"B"⟩, [fun _ => 1, fun _ => 1]⟩

/-- Fallback dataset for positional access to a dataset list. -/
def dsFallback : ChartDataset := { type := "", label := "", data := DatasetData.counts [] }

theorem incAt_length (l : List ℕ) (i : ℕ) : (incAt l i).length = l.length := by
  induction l generalizing i with
  | nil => rfl
  | cons x xs ih => cases i with
    | zero => rfl
    | succ j => simpa [incAt] using ih j

theorem incAt_sum (l : List ℕ) (i : ℕ) :
    (incAt l i).sum = l.sum + (if i < l.length then 1 else 0) := by
  induction l generalizing i with
  | nil => simp [incAt]
  | cons x xs ih =>
    cases i with
    | zero => simp [incAt]; omega
    | succ j =>
      simp only [incAt, List.sum_cons, ih j, List.length_cons]
      by_cases h : j < xs.length
      · have h2 : j + 1 < xs.length + 1 := by omega
        simp [h, h2]; omega
      · have h2 : ¬ (j + 1 < xs.length + 1) := by omega
        simp [h, h2]

/-- Processing a value equal to `max` takes the special-case branch and the
guarded branch computes the out-of-range index `nsteps`, so only the last
bucket is touched. -/
theorem binStep_eq_max (minV maxV : ℚ) (n : ℕ) (counts : List ℕ)
    (hn : 0 < n) (hlt : minV < maxV) :
    binStep minV maxV n counts maxV = incAt counts (n - 1) := by
  have hne : maxV - minV ≠ 0 := sub_ne_zero.mpr (ne_of_gt hlt)
  have hn0 : (n : ℚ) ≠ 0 := Nat.cast_ne_zero.mpr hn.ne'
  have hdiv : (maxV - minV) / ((maxV - minV) / (n : ℚ)) = (n : ℚ) := by
    field_simp
  unfold binStep
  simp only [if_pos rfl, hdiv]
  rw [Int.floor_natCast]
  have h2 : ¬ ((0 : ℤ) ≤ (n : ℤ) ∧ (n : ℤ) < (n : ℤ)) := by omega
  rw [if_neg h2, if_pos trivial]

theorem binStep_length (minV maxV : ℚ) (n : ℕ) (counts : List ℕ) (d : ℚ) :
    (binStep minV maxV n counts d).length = counts.length := by
  unfold binStep
  dsimp only
  split <;> split <;> simp [incAt_length]

theorem binStep_sum_le (minV maxV : ℚ) (n : ℕ) (counts : List ℕ) (d : ℚ)
    (hn : 0 < n) (hlt : minV < maxV) :
    (binStep minV maxV n counts d).sum ≤ counts.sum + 1 := by
  by_cases hd : d = maxV
  · subst hd
    rw [binStep_eq_max _ _ _ _ hn hlt, incAt_sum]
    split <;> omega
  · unfold binStep
    dsimp only
    rw [if_neg hd]
    split
    · rw [incAt_sum]; split <;> omega
    · omega

theorem binStep_sum_mem (minV maxV : ℚ) (n : ℕ) (counts : List ℕ) (d : ℚ)
    (hn : 0 < n) (hlt : minV < maxV) (hlen : counts.length = n)
    (h1 : minV ≤ d) (h2 : d ≤ maxV) :
    (binStep minV maxV n counts d).sum = counts.sum + 1 := by
  have hnQ : (0 : ℚ) < (n : ℚ) := by exact_mod_cast hn
  by_cases hd : d = maxV
  · subst hd
    rw [binStep_eq_max _ _ _ _ hn hlt, incAt_sum]
    have hlast : n - 1 < counts.length := by omega
    simp [hlast]
  · have hdlt : d < maxV := lt_of_le_of_ne h2 hd
    have hstep : (0 : ℚ) < (maxV - minV) / (n : ℚ) := div_pos (sub_pos.mpr hlt) hnQ
    have hb0 : (0 : ℤ) ≤ ⌊(d - minV) / ((maxV - minV) / (n : ℚ))⌋ :=
      Int.floor_nonneg.mpr (div_nonneg (by linarith) (le_of_lt hstep))
    have hbn : ⌊(d - minV) / ((maxV - minV) / (n : ℚ))⌋ < (n : ℤ) := by
      apply Int.floor_lt.mpr
      rw [div_lt_iff₀ hstep]
      have hcancel : (n : ℚ) * ((maxV - minV) / (n : ℚ)) = maxV - minV :=
        mul_div_cancel₀ _ (ne_of_gt hnQ)
      push_cast
      rw [hcancel]
      linarith
    unfold binStep
    dsimp only
    rw [if_neg hd, if_pos ⟨hb0, hbn⟩, incAt_sum]
    have htn : (⌊(d - minV) / ((maxV - minV) / (n : ℚ))⌋).toNat < counts.length := by
      omega
    simp [htn]

theorem foldl_binStep_length (minV maxV : ℚ) (n : ℕ) (data : List ℚ) (counts : List ℕ) :
    (data.foldl (binStep minV maxV n) counts).length = counts.length := by
  induction data generalizing counts with
  | nil => rfl
  | cons d rest ih => rw [List.foldl_cons, ih, binStep_length]

theorem foldl_binStep_sum_le (minV maxV : ℚ) (n : ℕ) (hn : 0 < n) (hlt : minV < maxV)
    (data : List ℚ) (counts : List ℕ) :
    (data.foldl (binStep minV maxV n) counts).sum ≤ counts.sum + data.length := by
  induction data generalizing counts with
  | nil => simp
  | cons d rest ih =>
    rw [List.foldl_cons]
    calc (rest.foldl (binStep minV maxV n) (binStep minV maxV n counts d)).sum
        ≤ (binStep minV maxV n counts d).sum + rest.length := ih _
      _ ≤ counts.sum + 1 + rest.length := by
          have := binStep_sum_le minV maxV n counts d hn hlt
          omega
      _ = counts.sum + (d :: rest).length := by simp; omega

theorem foldl_binStep_sum_mem (minV maxV : ℚ) (n : ℕ) (hn : 0 < n) (hlt : minV < maxV)
    (data : List ℚ) (counts : List ℕ) (hlen : counts.length = n)
    (hmem : ∀ d ∈ data, minV ≤ d ∧ d ≤ maxV) :
    (data.foldl (binStep minV maxV n) counts).sum = counts.sum + data.length := by
  induction data generalizing counts with
  | nil => simp
  | cons d rest ih =>
    have hd := hmem d (List.mem_cons_self d rest)
    rw [List.foldl_cons,
      ih _ (by rw [binStep_length, hlen]) (fun x hx => hmem x (List.mem_cons_of_mem d hx)),
      binStep_sum_mem minV maxV n counts d hn hlt hlen hd.1 hd.2]
    simp
    omega

theorem incAt_getD_self (l : List ℕ) (i : ℕ) (h : i < l.length) :
    (incAt l i).getD i 0 = l.getD i 0 + 1 := by
  induction l generalizing i with
  | nil => simp at h
  | cons x xs ih =>
    cases i with
    | zero => simp [incAt]
    | succ j =>
      simp only [incAt, List.getD_cons_succ]
      exact ih j (by simpa using h)

theorem incAt_getD_ne (l : List ℕ) (i j : ℕ) (h : j ≠ i) :
    (incAt l i).getD j 0 = l.getD j 0 := by
  induction l generalizing i j with
  | nil => simp [incAt]
  | cons x xs ih =>
    cases i with
    | zero =>
      cases j with
      | zero => exact absurd rfl h
      | succ k => simp [incAt]
    | succ i2 =>
      cases j with
      | zero => simp [incAt]
      | succ k =>
        simp only [incAt, List.getD_cons_succ]
        exact ih i2 k (by omega)

/-- C5: for every bucket count `n > 0` and range with `max > min`, a value
`d` exactly equal to `max` increments `counts[n-1]` exactly once (the
`otherwise` index computation produces the out-of-range index `n` and does
not count it again), and no position other than `n-1` changes, in
particular no out-of-bounds write occurs (the result keeps length `n`). -/
theorem C5_max_value_lands_in_last_bucket (minV maxV : ℚ) (n : ℕ) (counts : List ℕ)
    (hn : 0 < n) (hlt : minV < maxV) (hlen : counts.length = n) :
    binStep minV maxV n counts maxV = incAt counts (n - 1) ∧
    (binStep minV maxV n counts maxV).sum = counts.sum + 1 ∧
    (binStep minV maxV n counts maxV).length = n ∧
    (binStep minV maxV n counts maxV).getD (n - 1) 0 = counts.getD (n - 1) 0 + 1 ∧
    (∀ j, j ≠ n - 1 → (binStep minV maxV n counts maxV).getD j 0 = counts.getD j 0) := by
  have heq := binStep_eq_max minV maxV n counts hn hlt
  have hlast : n - 1 < counts.length := by omega
  refine ⟨heq, ?_, ?_, ?_, ?_⟩
  · rw [heq, incAt_sum]
    simp [hlast]
  · rw [binStep_length, hlen]
  · rw [heq, incAt_getD_self _ _ hlast]
  · intro j hj
    rw [heq, incAt_getD_ne _ _ _ hj]

/-- C5 witness at a concrete instance. -/
theorem C5_witness :
    binStep 0 5 5 [0, 0, 0, 0, 0] 5 = incAt [0, 0, 0, 0, 0] 4 ∧
    (binStep 0 5 5 [0, 0, 0, 0, 0] 5).sum = [0, 0, 0, 0, 0].sum + 1 ∧
    (binStep 0 5 5 [0, 0, 0, 0, 0] 5).length = 5 ∧
    (binStep 0 5 5 [0, 0, 0, 0, 0] 5).getD 4 0 = [0, 0, 0, 0, 0].getD 4 0 + 1 ∧
    (binStep 0 5 5 [0, 0, 0, 0, 0] 5).getD 2 0 = [0, 0, 0, 0, 0].getD 2 0 := by
  have h := C5_max_value_lands_in_last_bucket 0 5 5 [0, 0, 0, 0, 0]
    (by norm_num) (by norm_num) rfl
  exact ⟨h.1, h.2.1, h.2.2.1, h.2.2.2.1, h.2.2.2.2 2 (by norm_num)⟩

/-- C6: counts are natural numbers (hence non-negative) summing to at most
the number of input values, with equality when every value lies in the
closed interval `[min, max]`. -/
theorem C6_counts_sum_bounds (data : List ℚ) (minV maxV : ℚ) (n : ℕ)
    (hn : 0 < n) (hlt : minV < maxV) :
    (bin data minV maxV n).counts.sum ≤ data.length ∧
    ((∀ d ∈ data, minV ≤ d ∧ d ≤ maxV) → (bin data minV maxV n).counts.sum = data.length) := by
  constructor
  · have h := foldl_binStep_sum_le minV maxV n hn hlt data (List.replicate n 0)
    unfold bin at *
    simpa using h
  · intro hmem
    have h := foldl_binStep_sum_mem minV maxV n hn hlt data (List.replicate n 0) (by simp) hmem
    unfold bin at *
    simpa using h

/-- C6 witness at a concrete instance: data `[0, 1/2, 5]` lies in `[0, 5]`. -/
theorem C6_witness :
    (bin [0, 1/2, 5] 0 5 5).counts.sum ≤ 3 ∧
    (bin [0, 1/2, 5] 0 5 5).counts.sum = 3 := by
  have h := C6_counts_sum_bounds [0, 1/2, 5] 0 5 5 (by norm_num) (by norm_num)
  refine ⟨h.1, h.2 ?_⟩
  intro d hd
  simp only [List.mem_cons, List.not_mem_nil, or_false] at hd
  rcases hd with rfl | rfl | rfl <;> norm_num

theorem centres_getD (data : List ℚ) (minV maxV : ℚ) (n : ℕ) (i : ℕ) (hi : i < n) :
    (bin data minV maxV n).centres.getD i 0
      = minV + ((i : ℚ) + 1 / 2) * ((maxV - minV) / (n : ℚ)) := by
  unfold bin
  rw [List.getD_eq_getElem?_getD, List.getElem?_map, List.getElem?_range hi]
  rfl

/-- C7: the centres list has length `n`, is strictly increasing, and its
`i`-th entry is `min + (i + 1/2) * stepSize`, so the first centre is
`min + stepSize/2` and the last is `max - stepSize/2`. -/
theorem C7_centres_spec (data : List ℚ) (minV maxV : ℚ) (n : ℕ)
    (hn : 0 < n) (hlt : minV < maxV) :
    (bin data minV maxV n).centres.length = n ∧
    (bin data minV maxV n).centres.Pairwise (· < ·) ∧
    (∀ i, i < n → (bin data minV maxV n).centres.getD i 0
      = minV + ((i : ℚ) + 1 / 2) * ((maxV - minV) / (n : ℚ))) ∧
    (bin data minV maxV n).centres.getD 0 0 = minV + ((maxV - minV) / (n : ℚ)) / 2 ∧
    (bin data minV maxV n).centres.getD (n - 1) 0 = maxV - ((maxV - minV) / (n : ℚ)) / 2 := by
  have hnQ : (0 : ℚ) < (n : ℚ) := by exact_mod_cast hn
  have hstep : (0 : ℚ) < (maxV - minV) / (n : ℚ) := div_pos (sub_pos.mpr hlt) hnQ
  refine ⟨by simp [bin], ?_, fun i hi => centres_getD data minV maxV n i hi, ?_, ?_⟩
  · unfold bin
    dsimp only
    rw [List.pairwise_map]
    refine (List.pairwise_lt_range n).imp ?_
    intro a b hab
    have hc : (a : ℚ) < (b : ℚ) := by exact_mod_cast hab
    have := mul_lt_mul_of_pos_right (by linarith : (a : ℚ) + 1 / 2 < (b : ℚ) + 1 / 2) hstep
    linarith
  · rw [centres_getD data minV maxV n 0 hn]
    push_cast
    ring
  · rw [centres_getD data minV maxV n (n - 1) (by omega)]
    have hcast : ((n - 1 : ℕ) : ℚ) = (n : ℚ) - 1 := by
      have h1 : (1 : ℕ) ≤ n := hn
      push_cast [h1]
      ring
    rw [hcast]
    field_simp
    ring

/-- C7 witness at a concrete instance. -/
theorem C7_witness :
    (bin [] 0 5 5).centres.length = 5 ∧
    (bin [] 0 5 5).centres.Pairwise (· < ·) ∧
    (bin [] 0 5 5).centres.getD 2 0 = 0 + ((2 : ℚ) + 1 / 2) * ((5 - 0) / (5 : ℚ)) ∧
    (bin [] 0 5 5).centres.getD 0 0 = 0 + ((5 - 0) / (5 : ℚ)) / 2 ∧
    (bin [] 0 5 5).centres.getD (5 - 1) 0 = 5 - ((5 - 0) / (5 : ℚ)) / 2 := by
  have h := C7_centres_spec [] 0 5 5 (by norm_num) (by norm_num)
  refine ⟨h.1, h.2.1, ?_, h.2.2.2.1, h.2.2.2.2⟩
  have h2 := h.2.2.1 2 (by norm_num)
  simpa using h2

/-- C3 counterexample: at the claim's own input the counts are not
`[1, 1, 1, 1, 1]` (value `1` falls in bucket 1, not bucket 0, and the
`5 == max` special case puts `5` in bucket 4 alongside `4`). -/
theorem C3_counterexample :
    ¬ ((bin [1, 2, 3, 4, 5] 0 5 5).counts = [1, 1, 1, 1, 1] ∧
       (bin [1, 2, 3, 4, 5] 0 5 5).centres = [1/2, 3/2, 5/2, 7/2, 9/2]) := by
  intro h
  have hc : (bin [1, 2, 3, 4, 5] 0 5 5).counts = [0, 1, 1, 1, 2] := by
    norm_num [bin, binStep, incAt]
  rw [hc] at h
  simp at h

/-- C3 amended: for input data `[1,2,3,4,5]` with `min = 0`, `max = 5`,
`bucketCount = 5`, `bin` returns `counts = [0,1,1,1,2]` and
`centres = [0.5, 1.5, 2.5, 3.5, 4.5]`. -/
theorem C3_amended_bin_eval :
    (bin [1, 2, 3, 4, 5] 0 5 5).counts = [0, 1, 1, 1, 2] ∧
    (bin [1, 2, 3, 4, 5] 0 5 5).centres = [1/2, 3/2, 5/2, 7/2, 9/2] := by
  constructor
  · norm_num [bin, binStep, incAt]
  · norm_num [bin, List.range_succ]

/-- C4 counterexample: `calculateTickStepSize 104 0` is not `25`; the raw
step `(104 - 0) / 4 = 26` does not exceed `100`, so the final rounding
branch applies and the result is `26`. -/
theorem C4_counterexample : calculateTickStepSize 104 0 ≠ 25 := by
  have h : calculateTickStepSize 104 0 = 26 := by
    norm_num [calculateTickStepSize, jsRound]
  rw [h]
  norm_num

/-- C4 amended: `tickStepSize(104, 0) = 26` via the final rounding branch
(`raw = 26` is not greater than `100`); `tickStepSize(1, 0) = 0.5`;
`tickStepSize(3, 0) = 1`; and in general, with `raw = (max - min) / 4`,
the four branches apply in priority order: `raw < 0.5` gives `0.5`, else
`raw < 1` gives `1`, else `raw > 100` gives
`round(raw / magnitude) * magnitude` with
`magnitude = 10 ^ floor(log10 raw)`, else `round(raw)`. -/
theorem C4_amended_tick_step_policy :
    calculateTickStepSize 104 0 = 26 ∧
    calculateTickStepSize 1 0 = 1 / 2 ∧
    calculateTickStepSize 3 0 = 1 ∧
    ∀ maxV minV : ℚ,
      ((maxV - minV) / 4 < 1 / 2 → calculateTickStepSize maxV minV = 1 / 2) ∧
      (¬ (maxV - minV) / 4 < 1 / 2 → (maxV - minV) / 4 < 1 →
        calculateTickStepSize maxV minV = 1) ∧
      (¬ (maxV - minV) / 4 < 1 / 2 → ¬ (maxV - minV) / 4 < 1 → (maxV - minV) / 4 > 100 →
        calculateTickStepSize maxV minV
          = (jsRound ((maxV - minV) / 4 / orderOfMagnitude ((maxV - minV) / 4)) : ℚ)
            * orderOfMagnitude ((maxV - minV) / 4)) ∧
      (¬ (maxV - minV) / 4 < 1 / 2 → ¬ (maxV - minV) / 4 < 1 → ¬ (maxV - minV) / 4 > 100 →
        calculateTickStepSize maxV minV = (jsRound ((maxV - minV) / 4) : ℚ)) := by
  refine ⟨?_, ?_, ?_, ?_⟩
  · norm_num [calculateTickStepSize, jsRound]
  · norm_num [calculateTickStepSize]
  · norm_num [calculateTickStepSize, jsRound]
  · intro maxV minV
    refine ⟨?_, ?_, ?_, ?_⟩ <;> intro h1 <;>
      first
        | (intro h2 h3
           unfold calculateTickStepSize
           rw [if_neg h1, if_neg h2, if_pos h3])
        | (intro h2 h3
           unfold calculateTickStepSize
           rw [if_neg h1, if_neg h2, if_neg h3])
        | (intro h2
           unfold calculateTickStepSize
           rw [if_neg h1, if_pos h2])
        | (unfold calculateTickStepSize
           rw [if_pos h1])

/-- C4 witness: the `> 100` branch at `(500 - 0) / 4 = 125`, where the
magnitude is `100` and the result rounds `1.25` to `1`, giving `100`; plus
concrete instances of the other three branches. -/
theorem C4_witness :
    calculateTickStepSize 500 0
      = (jsRound ((500 - 0) / 4 / orderOfMagnitude ((500 - 0) / 4)) : ℚ)
        * orderOfMagnitude ((500 - 0) / 4) ∧
    calculateTickStepSize 1 0 = 1 / 2 ∧
    calculateTickStepSize 3 0 = 1 ∧
    calculateTickStepSize 104 0 = (jsRound ((104 - 0) / 4) : ℚ) := by
  refine ⟨?_, ?_, ?_, ?_⟩
  · exact (C4_amended_tick_step_policy.2.2.2 500 0).2.2.1
      (by norm_num) (by norm_num) (by norm_num)
  · exact (C4_amended_tick_step_policy.2.2.2 1 0).1 (by norm_num)
  · exact (C4_amended_tick_step_policy.2.2.2 3 0).2.1 (by norm_num) (by norm_num)
  · exact (C4_amended_tick_step_policy.2.2.2 104 0).2.2.2
      (by norm_num) (by norm_num) (by norm_num)

/-- C9: `makeChartData` dispatches on its arguments: a `null` comparison
scenario yields the single-scenario payload regardless of `chartStyle`; a
non-null comparison scenario yields the overlay payload for `"both"` and
the difference payload for `"difference"`; any other `chartStyle` with a
non-null comparison scenario produces no payload (JavaScript
`undefined`, embedded as `none`). -/
theorem C9_makeChartData_dispatch (config : Config)
    (makeColormap : String → ℕ → List String) (indicator : String)
    (scenario cmp : Scenario) (nbars : ℕ) (chartStyle : String) :
    (makeChartData config makeColormap indicator scenario none nbars chartStyle
      = some (makeChartDataOneScenario config makeColormap indicator scenario nbars)) ∧
    (makeChartData config makeColormap indicator scenario (some cmp) nbars "both"
      = some (makeChartDataTwoScenarios config makeColormap indicator scenario cmp nbars)) ∧
    (makeChartData config makeColormap indicator scenario (some cmp) nbars "difference"
      = some (makeChartDataDifference config makeColormap indicator scenario cmp nbars)) ∧
    (chartStyle ≠ "both" → chartStyle ≠ "difference" →
      makeChartData config makeColormap indicator scenario (some cmp) nbars chartStyle
        = none) := by
  refine ⟨rfl, ?_, ?_, ?_⟩
  · simp [makeChartData]
  · simp [makeChartData]
  · intro h1 h2
    simp [makeChartData, h1, h2]

/-- C9 witness at concrete arguments, including a `chartStyle` outside the
source's union type. -/
theorem C9_witness :
    makeChartData ⟨⟨0, 5⟩⟩ (fun _ _ => []) "i" ⟨⟨"A"⟩, []⟩ (some ⟨⟨"B"⟩, []⟩) 5 "overlay"
      = none :=
  (C9_makeChartData_dispatch ⟨⟨0, 5⟩⟩ (fun _ _ => []) "i" ⟨⟨"A"⟩, []⟩ ⟨⟨"B"⟩, []⟩ 5
    "overlay").2.2.2 (by decide) (by decide)

/-- C10: in single-scenario and two-scenario overlay modes, the payload's
`tickStepSize` and `labels` depend only on the global scale bounds and the
bucket count, never on the scenario data: any two scenarios (or pairs of
scenarios) produce identical `tickStepSize` and `labels`. -/
theorem C10_labels_tick_data_independent (config : Config)
    (makeColormap : String → ℕ → List String) (indicator : String) (nbars : ℕ)
    (s1 s2 c1 c2 : Scenario) :
    (makeChartDataOneScenario config makeColormap indicator s1 nbars).labels
      = (makeChartDataOneScenario config makeColormap indicator s2 nbars).labels ∧
    (makeChartDataOneScenario config makeColormap indicator s1 nbars).tickStepSize
      = (makeChartDataOneScenario config makeColormap indicator s2 nbars).tickStepSize ∧
    (makeChartDataTwoScenarios config makeColormap indicator s1 c1 nbars).labels
      = (makeChartDataTwoScenarios config makeColormap indicator s2 c2 nbars).labels ∧
    (makeChartDataTwoScenarios config makeColormap indicator s1 c1 nbars).tickStepSize
      = (makeChartDataTwoScenarios config makeColormap indicator s2 c2 nbars).tickStepSize ∧
    (makeChartDataOneScenario config makeColormap indicator s1 nbars).labels
      = (bin [] config.scale.min config.scale.max nbars).centres ∧
    (makeChartDataOneScenario config makeColormap indicator s1 nbars).tickStepSize
      = calculateTickStepSize config.scale.max config.scale.min :=
  ⟨rfl, rfl, rfl, rfl, rfl, rfl⟩

theorem diffValuesJS_self (xs : List ℚ) :
    diffValuesJS xs xs = List.replicate xs.length (JSVal.num 0) := by
  induction xs with
  | nil => rfl
  | cons x rest ih => simp [diffValuesJS, ih, List.replicate_succ]

theorem rawDiffsJS_self (xs : List ℚ) : rawDiffsJS xs xs = [] := by
  rw [rawDiffsJS, diffValuesJS_self]
  simp

/-- C2: in difference mode with two identical scenarios every per-area
difference is exactly `0` and the zero filter drops them all, so the
retained-difference list is empty — but then the source's
`Math.max(Math.abs(Math.min(...[])), Math.abs(Math.max(...[])), 0.1)`
evaluates to `Infinity` (the empty spreads give `Infinity` and
`-Infinity`, whose absolute values are both `Infinity`), not to the `0.1`
floor that the source's own comment promises for the all-zero case. -/
theorem C2_identical_scenarios_infinite_bound (indicator : String) (scenario : Scenario) :
    diffValuesJS (getValues indicator scenario) (getValues indicator scenario)
      = List.replicate (getValues indicator scenario).length (JSVal.num 0) ∧
    rawDiffsJS (getValues indicator scenario) (getValues indicator scenario) = [] ∧
    diffMaxBound (getValues indicator scenario) (getValues indicator scenario)
      = JSVal.posInf ∧
    JSVal.posInf ≠ JSVal.num (1 / 10) := by
  refine ⟨diffValuesJS_self _, rawDiffsJS_self _, ?_, by simp⟩
  rw [diffMaxBound, rawDiffsJS_self]
  rfl

/-- C1: at a concrete pair of scenarios with different means, the red
dashed "comparison mean" scatter dataset emitted by
`makeChartDataTwoScenarios` places both its points at `x = 0`, the PRIMARY
scenario's mean, with top `y = 1.1 * 1` from the PRIMARY scenario's
counts — although the comparison scenario's mean is `1` and its peak
count is `2`, so the segment the claim describes would be
`[(1, 5), (1, 2.2)]`.  The source builds this dataset from `mean` and
`bins.counts` instead of `cmpMean` and `cmpBins.counts`, contradicting
its own label `"B mean: 1.00"`. -/
theorem C1_red_marker_uses_primary_mean :
    ((makeChartDataTwoScenarios chartConfigC1 (fun _ _ => []) "i"
        scenarioC1A scenarioC1B 5).datasets.getD 0 dsFallback).type = "scatter" ∧
    ((makeChartDataTwoScenarios chartConfigC1 (fun _ _ => []) "i"
        scenarioC1A scenarioC1B 5).datasets.getD 0 dsFallback).borderColor
      = some "#ff0000" ∧
    ((makeChartDataTwoScenarios chartConfigC1 (fun _ _ => []) "i"
        scenarioC1A scenarioC1B 5).datasets.getD 0 dsFallback).borderDash
      = some [6, 3] ∧
    ((makeChartDataTwoScenarios chartConfigC1 (fun _ _ => []) "i"
        scenarioC1A scenarioC1B 5).datasets.getD 0 dsFallback).data
      = DatasetData.points [(0, 5), (0, 11 / 10)] ∧
    getMean (getValues "i" scenarioC1A) = 0 ∧
    getMean (getValues "i" scenarioC1B) = 1 ∧
    (jsMaxNat (bin (getValues "i" scenarioC1B)
        chartConfigC1.scale.min chartConfigC1.scale.max 5).counts : ℚ) * (11 / 10)
      = 11 / 5 ∧
    DatasetData.points [(0, 5), (0, 11 / 10)]
      ≠ DatasetData.points [(1, 5), (1, 11 / 5)] := by
  have hA : getValues "i" scenarioC1A = [0] := rfl
  have hB : getValues "i" scenarioC1B = [1, 1] := rfl
  have hmeanA : getMean [0] = 0 := by norm_num [getMean]
  have hmeanB : getMean [1, 1] = 1 := by norm_num [getMean]
  have hbinsA : (bin [0] 0 5 5).counts = [1, 0, 0, 0, 0] := by
    norm_num [bin, binStep, incAt, List.replicate_succ]
  have hbinsB : (bin [1, 1] 0 5 5).counts = [0, 2, 0, 0, 0] := by
    norm_num [bin, binStep, incAt, List.replicate_succ]
  have hcfgmin : chartConfigC1.scale.min = 0 := rfl
  have hcfgmax : chartConfigC1.scale.max = 5 := rfl
  refine ⟨rfl, rfl, rfl, ?_, ?_, ?_, ?_, ?_⟩
  · show DatasetData.points
      [(getMean (getValues "i" scenarioC1A), 5),
       (getMean (getValues "i" scenarioC1A),
        (jsMaxNat (bin (getValues "i" scenarioC1A)
          chartConfigC1.scale.min chartConfigC1.scale.max 5).counts : ℚ) * (11 / 10))]
      = DatasetData.points [(0, 5), (0, 11 / 10)]
    rw [hA, hcfgmin, hcfgmax, hmeanA, hbinsA]
    norm_num [jsMaxNat]
  · rw [hA]; exact hmeanA
  · rw [hB]; exact hmeanB
  · rw [hB, hcfgmin, hcfgmax, hbinsB]
    norm_num [jsMaxNat]
  · intro h
    simp only [DatasetData.points.injEq, List.cons.injEq, Prod.mk.injEq] at h
    exact absurd h.1.1 (by norm_num)

theorem natToDigits_two : natToDigits 2 = ['2'] := by
  rw [natToDigits]; norm_num [Nat.digitChar]

theorem fracDigits_zero (fuel : ℕ) : fracDigits fuel 0 = [] := by
  rw [fracDigits]; simp

theorem fracDigits_half : fracDigits 20 (1/2 : ℚ) = ['5'] := by
  rw [fracDigits]
  norm_num [Nat.digitChar, show Int.toNat 5 = 5 from rfl, fracDigits_zero]

theorem ratToString_fivehalves : ratToString (5/2 : ℚ) = "2.5" := by
  rw [ratToString]
  norm_num [show Int.toNat 2 = 2 from rfl, natToDigits_two, fracDigits_half]

example : prettyLabel 2500000 false = "2.5M" := by
  have h1 : ¬ ((2500000 : ℚ) = 0) := by norm_num
  have h2 : (2500000 : ℚ) ≥ 1000000 := by norm_num
  have h3 : (2500000 : ℚ) / 1000000 = 5 / 2 := by norm_num
  rw [prettyLabel, if_neg h1, if_pos h2, h3, ratToString_fivehalves]
  rfl

theorem natToDigits_ne_nil (n : ℕ) : natToDigits n ≠ [] := by
  rw [natToDigits]
  split
  · simp
  · simp

theorem natToDigits_head_isDigit (n : ℕ) :
    ∀ c, (natToDigits n).head? = some c → c.isDigit = true := by
  induction n using Nat.strong_induction_on with
  | _ n ih =>
    rw [natToDigits]
    by_cases h : n < 10
    · rw [dif_pos h]
      intro c hc
      simp only [List.head?_cons, Option.some.injEq] at hc
      subst hc
      interval_cases n <;> decide
    · rw [dif_neg h]
      intro c hc
      rw [List.head?_append] at hc
      cases hl : (natToDigits (n / 10)).head? with
      | some d =>
        rw [hl] at hc
        simp only [Option.or_some, Option.some.injEq] at hc
        subst hc
        exact ih (n / 10) (Nat.div_lt_self (by omega) (by norm_num)) d hl
      | none =>
        exact absurd (List.head?_eq_none_iff.mp hl) (natToDigits_ne_nil (n / 10))

theorem ratToString_head_isDigit (q : ℚ) :
    ∀ c, (ratToString q).data.head? = some c → c.isDigit = true := by
  rw [ratToString]
  by_cases h : q - ((Int.toNat ⌊q⌋ : ℕ) : ℚ) = 0
  · rw [if_pos h]
    intro c hc
    exact natToDigits_head_isDigit _ c hc
  · rw [if_neg h]
    intro c hc
    rw [List.head?_append] at hc
    cases hl : (natToDigits (Int.toNat ⌊q⌋)).head? with
    | some d =>
      rw [hl] at hc
      simp only [Option.or_some, Option.some.injEq] at hc
      subst hc
      exact natToDigits_head_isDigit _ d hl
    | none =>
      exact absurd (List.head?_eq_none_iff.mp hl) (natToDigits_ne_nil _)

theorem prettyLabel_neg (v : ℚ) (ws : Bool) (hv : v < 0) :
    prettyLabel v ws = "−" ++ prettyLabel (-v) false := by
  have h0 : ¬ (v = 0) := ne_of_lt hv
  have h0n : ¬ (-v = 0) := by intro h; exact h0 (by linarith)
  have hge6 : ¬ (v ≥ 1000000) := by intro h; linarith
  have hge3 : ¬ (v ≥ 1000) := by intro h; linarith
  rw [prettyLabel, prettyLabel, if_neg h0, if_neg h0n, if_neg hge6, if_neg hge3]
  by_cases hA : v ≤ -1000000
  · have hA2 : -v ≥ 1000000 := by linarith
    rw [if_pos hA, if_pos hA2]
    have habs : |v / 1000000| = -v / 1000000 := by
      rw [abs_of_neg (div_neg_of_neg_of_pos hv (by norm_num))]
      ring
    rw [habs]
    simp [String.append_assoc]
  · have hA2 : ¬ (-v ≥ 1000000) := by intro h; exact hA (by linarith)
    rw [if_neg hA, if_neg hA2]
    by_cases hB : v ≤ -1000
    · have hB2 : -v ≥ 1000 := by linarith
      rw [if_pos hB, if_pos hB2]
      have habs : |v / 1000| = -v / 1000 := by
        rw [abs_of_neg (div_neg_of_neg_of_pos hv (by norm_num))]
        ring
      rw [habs]
      simp [String.append_assoc]
    · have hB2 : ¬ (-v ≥ 1000) := by intro h; exact hB (by linarith)
      have hC : ¬ (v ≥ 0) := by intro h; linarith
      have hC2 : -v ≥ 0 := by linarith
      have hD : ¬ (-v ≤ -1000000) := by intro h; linarith
      have hE : ¬ (-v ≤ -1000) := by intro h; linarith
      rw [if_neg hB, if_neg hB2, if_neg hC, if_neg hD, if_neg hE, if_pos hC2,
        abs_of_neg hv]
      simp

theorem prettyLabel_pos_sign (v : ℚ) (hv : 0 < v) :
    prettyLabel v true = "+" ++ prettyLabel v false := by
  have h0 : ¬ (v = 0) := ne_of_gt hv
  rw [prettyLabel, prettyLabel, if_neg h0, if_neg h0]
  by_cases hA : v ≥ 1000000
  · rw [if_pos hA, if_pos hA]
    simp [String.append_assoc]
  · rw [if_neg hA, if_neg hA]
    by_cases hB : v ≥ 1000
    · rw [if_pos hB, if_pos hB]
      simp [String.append_assoc]
    · have hD : ¬ (v ≤ -1000000) := by intro h; linarith
      have hE : ¬ (v ≤ -1000) := by intro h; linarith
      have hF : v ≥ 0 := le_of_lt hv
      rw [if_neg hB, if_neg hB, if_neg hD, if_neg hD, if_neg hE, if_neg hE,
        if_pos hF, if_pos hF]
      simp

theorem ratToString_data_ne_nil (q : ℚ) : (ratToString q).data ≠ [] := by
  rw [ratToString]
  by_cases h : q - ((Int.toNat ⌊q⌋ : ℕ) : ℚ) = 0
  · rw [if_pos h]
    exact natToDigits_ne_nil _
  · rw [if_neg h]
    simp [natToDigits_ne_nil]

theorem ratToString_append_head_isDigit (q : ℚ) (suffix : List Char) :
    ∀ c, ((ratToString q).data ++ suffix).head? = some c → c.isDigit = true := by
  intro c hc
  rw [List.head?_append] at hc
  cases hl : (ratToString q).data.head? with
  | some d =>
    rw [hl] at hc
    simp only [Option.or_some, Option.some.injEq] at hc
    subst hc
    exact ratToString_head_isDigit q d hl
  | none =>
    exact absurd (List.head?_eq_none_iff.mp hl) (ratToString_data_ne_nil q)

theorem prettyLabel_pos_no_plus (v : ℚ) (hv : 0 < v) :
    ∀ c, (prettyLabel v false).data.head? = some c → c ≠ '+' := by
  have hdig : ∀ c : Char, c.isDigit = true → c ≠ '+' := by
    intro c hc heq
    subst heq
    simp at hc
  have h0 : ¬ (v = 0) := ne_of_gt hv
  rw [prettyLabel, if_neg h0]
  by_cases hA : v ≥ 1000000
  · rw [if_pos hA]
    intro c hc
    simp only [if_neg Bool.false_ne_true, String.data_append, List.append_assoc,
      List.nil_append] at hc
    exact hdig c (ratToString_append_head_isDigit _ _ c hc)
  · rw [if_neg hA]
    by_cases hB : v ≥ 1000
    · rw [if_pos hB]
      intro c hc
      simp only [if_neg Bool.false_ne_true, String.data_append, List.append_assoc,
        List.nil_append] at hc
      exact hdig c (ratToString_append_head_isDigit _ _ c hc)
    · have hD : ¬ (v ≤ -1000000) := by intro h; linarith
      have hE : ¬ (v ≤ -1000) := by intro h; linarith
      have hF : v ≥ 0 := le_of_lt hv
      rw [if_neg hB, if_neg hD, if_neg hE, if_pos hF]
      intro c hc
      simp only [if_neg Bool.false_ne_true, String.data_append,
        List.nil_append] at hc
      exact hdig c (ratToString_head_isDigit _ c hc)

theorem natToDigits_five : natToDigits 5 = ['5'] := by
  rw [natToDigits]; norm_num [Nat.digitChar]

theorem ratToString_five : ratToString (5 : ℚ) = "5" := by
  rw [ratToString]
  norm_num [show Int.toNat 5 = 5 from rfl, natToDigits_five]

/-- C8: `prettyLabel` satisfies the four concrete cases
`prettyLabel 2500000 = "2.5M"`, `prettyLabel (-2500) = "−2.5K"`,
`prettyLabel 0 = "0"`, `prettyLabel 5 true = "+5"`; every negative value
renders as the true minus-sign glyph (U+2212) followed by the formatting
of its absolute value; and a positive value is prefixed with `"+"` exactly
when `withSign` is true (with `withSign` false the rendering starts with a
decimal digit, never `'+'`). -/
theorem C8_prettyLabel_spec :
    prettyLabel 2500000 false = "2.5M" ∧
    prettyLabel (-2500) false = "−2.5K" ∧
    prettyLabel 0 false = "0" ∧
    prettyLabel 5 true = "+5" ∧
    (∀ (v : ℚ) (ws : Bool), v < 0 → prettyLabel v ws = "−" ++ prettyLabel (-v) false) ∧
    (∀ v : ℚ, 0 < v → prettyLabel v true = "+" ++ prettyLabel v false) ∧
    (∀ v : ℚ, 0 < v → ∀ c, (prettyLabel v false).data.head? = some c → c ≠ '+') := by
  refine ⟨?_, ?_, ?_, ?_, prettyLabel_neg, prettyLabel_pos_sign, prettyLabel_pos_no_plus⟩
  · have h1 : ¬ ((2500000 : ℚ) = 0) := by norm_num
    have h2 : (2500000 : ℚ) ≥ 1000000 := by norm_num
    have h3 : (2500000 : ℚ) / 1000000 = 5 / 2 := by norm_num
    rw [prettyLabel, if_neg h1, if_pos h2, h3, ratToString_fivehalves]
    rfl
  · have h0 : ¬ ((-2500 : ℚ) = 0) := by norm_num
    have h1 : ¬ ((-2500 : ℚ) ≥ 1000000) := by norm_num
    have h2 : ¬ ((-2500 : ℚ) ≥ 1000) := by norm_num
    have h3 : ¬ ((-2500 : ℚ) ≤ -1000000) := by norm_num
    have h4 : (-2500 : ℚ) ≤ -1000 := by norm_num
    have h5 : ((-2500 : ℚ) / 1000) = -(5 / 2) := by norm_num
    have habs : |(-2500 : ℚ) / 1000| = 5 / 2 := by
      rw [h5, abs_neg, abs_of_pos (by norm_num : (0 : ℚ) < 5 / 2)]
    rw [prettyLabel, if_neg h0, if_neg h1, if_neg h2, if_neg h3, if_pos h4, habs,
      ratToString_fivehalves]
    rfl
  · rw [prettyLabel, if_pos rfl]
  · have h0 : ¬ ((5 : ℚ) = 0) := by norm_num
    have h1 : ¬ ((5 : ℚ) ≥ 1000000) := by norm_num
    have h2 : ¬ ((5 : ℚ) ≥ 1000) := by norm_num
    have h3 : ¬ ((5 : ℚ) ≤ -1000000) := by norm_num
    have h4 : ¬ ((5 : ℚ) ≤ -1000) := by norm_num
    have h5 : (5 : ℚ) ≥ 0 := by norm_num
    rw [prettyLabel, if_neg h0, if_neg h1, if_neg h2, if_neg h3, if_neg h4,
      if_pos h5, ratToString_five]
    rfl

/-- Evaluation of `prettyLabel` at `5` without a sign request. -/
theorem prettyLabel_five_no_sign : prettyLabel 5 false = "5" := by
  have h0 : ¬ ((5 : ℚ) = 0) := by norm_num
  have h1 : ¬ ((5 : ℚ) ≥ 1000000) := by norm_num
  have h2 : ¬ ((5 : ℚ) ≥ 1000) := by norm_num
  have h3 : ¬ ((5 : ℚ) ≤ -1000000) := by norm_num
  have h4 : ¬ ((5 : ℚ) ≤ -1000) := by norm_num
  have h5 : (5 : ℚ) ≥ 0 := by norm_num
  rw [prettyLabel, if_neg h0, if_neg h1, if_neg h2, if_neg h3, if_neg h4,
    if_pos h5, ratToString_five]
  rfl

/-- C8 witness: the quantified parts of the C8 theorem instantiated at the
concrete inputs `-5` and `5`. -/
theorem C8_witness :
    prettyLabel (-5) true = "−" ++ prettyLabel (-(-5)) false ∧
    prettyLabel 5 true = "+" ++ prettyLabel 5 false ∧
    ('5' : Char) ≠ '+' :=
  ⟨C8_prettyLabel_spec.2.2.2.2.1 (-5) true (by norm_num),
   C8_prettyLabel_spec.2.2.2.2.2.1 5 (by norm_num),
   C8_prettyLabel_spec.2.2.2.2.2.2 5 (by norm_num) '5'
     (by rw [prettyLabel_five_no_sign]; rfl)⟩
